import Mathlib

/-!
Shallow embedding of the civic-issue reporting backend
(`src/backend/src/controllers/issue.controller.js`,
`src/backend/src/middleware/auth.middleware.js`, the user controller and the
issue router) together with the frontend pagination utility
(`src/frontend/utils/pagination.js`).

Ids, roles, statuses and categories are JavaScript strings and are embedded
as `String`.  The database (Prisma over PostgreSQL) is embedded as explicit
lists of records; each controller is a pure function from a database state
and a request to a response and a successor state.  The latitude/longitude
attributes are JavaScript numbers that no operation in scope computes with;
they are carried as `Option Int` values solely so that record equality stays
decidable.
-/

namespace CivicIssue

/-- The five issue statuses of the `Status` enum. -/
def STATUSES : List String :=
  ["REPORTED", "UNDER_REVIEW", "IN_PROGRESS", "RESOLVED", "CLOSED"]

/-- The eight issue categories of the `Category` enum
(`body('category').isIn([...])` in the issue router). -/
def CATEGORIES : List String :=
  ["ROADS", "WATER", "ELECTRICITY", "SANITATION", "PUBLIC_SAFETY",
   "ENVIRONMENT", "PUBLIC_PROPERTY", "OTHER"]

/-- A user row (`User` model): id, name, email, role, profile picture. -/
structure User where
  id : String
  name : String
  email : String
  role : String
  profilePicture : String
deriving DecidableEq, Repr

/-- An issue row (`Issue` model). -/
structure Issue where
  id : String
  title : String
  description : String
  location : String
  latitude : Option Int
  longitude : Option Int
  category : String
  status : String
  upvotes : Int
  images : List String
  reporterId : String
deriving DecidableEq, Repr

/-- A comment row (`Comment` model). -/
structure Comment where
  id : String
  content : String
  issueId : String
  authorId : String
deriving DecidableEq, Repr

/-- The persistent store: the three tables the controllers touch. -/
structure DB where
  users : List User
  issues : List Issue
  comments : List Comment
deriving DecidableEq, Repr

/-- An HTTP response: `res.status(code).json(...)` with either a success
payload or an error message. -/
inductive Resp (α : Type) where
  | success (code : Nat) (data : α)
  | failure (code : Nat) (msg : String)
deriving DecidableEq, Repr

/-- `prisma.issue.findUnique({ where: { id } })`. -/
def findIssue (db : DB) (id : String) : Option Issue :=
  db.issues.find? (fun i => i.id = id)

/-- `prisma.user.findUnique({ where: { id } })`. -/
def findUser (db : DB) (id : String) : Option User :=
  db.users.find? (fun u => u.id = id)

/-- `prisma.issue.update({ where: { id: upd.id }, data: ... })`, written as
replacing the row with the updated record (`id` is unique in the schema). -/
def setIssue (db : DB) (upd : Issue) : DB :=
  { db with issues := db.issues.map (fun i => if i.id = upd.id then upd else i) }

/-! ## Authentication middleware (`auth.middleware.js`) -/

/-- Outcome of `jwt.verify(token, secret)`: the decoded payload's `id`, or one
of the two error classes the middleware names, or any other throw (which the
middleware forwards to `next(error)`). -/
inductive VerifyResult where
  | ok (userId : String)
  | invalidSignature
  | expired
  | otherError
deriving DecidableEq, Repr

/-- The `{id, email, name, role}` projection the middleware selects and
attaches as `req.user`. -/
structure AuthedUser where
  id : String
  email : String
  name : String
  role : String
deriving DecidableEq, Repr

/-- JavaScript `str.split(c)` over the character list of the string (the
library `String.splitOn` does not reduce in the kernel, so the split is
spelled out). -/
def splitOnChar (c : Char) : List Char → List (List Char)
  | [] => [[]]
  | x :: xs =>
    match splitOnChar c xs with
    | [] => [[x]]
    | y :: ys => if x = c then [] :: y :: ys else (x :: y) :: ys

/-- `authHeader.split(' ')`. -/
def jsSplit (s : String) (c : Char) : List String :=
  (splitOnChar c s.data).map (fun l => String.mk l)

/-- `authHeader.startsWith('Bearer ')`. -/
def strStartsWith (s p : String) : Bool :=
  p.data.isPrefixOf s.data

/-- `authHeader.split(' ')[1]`: the token part of the header. -/
def bearerToken (h : String) : String :=
  (jsSplit h ' ').getD 1 ""

/-- The authentication middleware.  `verify` stands for
`jwt.verify(·, process.env.JWT_SECRET)`.  `Sum.inl` is an early response (the
guarded handler is never reached); `Sum.inr` is the `req.user` record handed
to the handler via `next()`.  The source early-returns on a missing or
non-`Bearer` header; here the guard is the positive branch of the same
test. -/
def authMiddleware (verify : String → VerifyResult) (db : DB)
    (authHeader : Option String) : Sum (Nat × String) AuthedUser :=
  match authHeader with
  | none => .inl (401, "Not authenticated. Please log in")
  | some h =>
    if strStartsWith h "Bearer " then
      match verify (bearerToken h) with
      | .invalidSignature => .inl (401, "Invalid token. Please log in again")
      | .expired => .inl (401, "Your token has expired. Please log in again")
      | .otherError => .inl (500, "Internal server error")
      | .ok uid =>
        match findUser db uid with
        | none => .inl (401, "The user belonging to this token no longer exists")
        | some u => .inr ⟨u.id, u.email, u.name, u.role⟩
    else .inl (401, "Not authenticated. Please log in")

/-! ## Issue update (`updateIssue`) -/

/-- The request body of `PUT /api/issues/:id`: each field is absent
(`undefined`) or a string. -/
structure IssueUpdateBody where
  title : Option String
  description : Option String
  status : Option String
  category : Option String
deriving DecidableEq, Repr

/-- An enum-typed `data` field is acceptable to the Prisma client when it is
`undefined` (field untouched) or one of the enum's values. -/
def validEnumField (allowed : List String) : Option String → Bool
  | none => true
  | some s => s ∈ allowed

/-- Modelled from the spec: the Prisma schema
(`backend/prisma/schema.prisma`, which is repository code not under `src/`)
declares `status` (five values) and `category` (eight values) as closed
enums, so the generated client rejects an `update` whose `status` or
`category` lies outside the enum; the controller's `catch` forwards such a
throw to `next(error)` (500).  A field that is `undefined` in `data` is left
unchanged by Prisma. -/
def prismaIssueUpdateData (ex : Issue) (b : IssueUpdateBody) : Except String Issue :=
  if validEnumField STATUSES b.status then
    if validEnumField CATEGORIES b.category then
      .ok { ex with title := b.title.getD ex.title,
                    description := b.description.getD ex.description,
                    status := b.status.getD ex.status,
                    category := b.category.getD ex.category }
    else .error "Invalid value for argument category"
  else .error "Invalid value for argument status"

/-- A notification dispatch attempt (`sendStatusUpdateEmail`,
`sendIssueCreatedEmail`, `sendAdminNotificationEmail`).  The recipient email
comes from the included `reporter` relation, hence is `none` when the
reporter row is missing. -/
inductive Mail where
  | statusUpdate (recipient : Option String) (issueId oldStatus newStatus : String)
  | issueCreated (recipient : Option String) (issueId : String)
  | adminNotice (issueId : String)
deriving DecidableEq, Repr

/-- Everything `updateIssue` produces: the response, the successor store, the
notification attempts, and the `console.error` log lines. -/
structure UpdateOutcome where
  resp : Resp Issue
  db : DB
  mails : List Mail
  log : List String
deriving DecidableEq, Repr

/-- `statusChanged = status && status !== existingIssue.status` — JavaScript
truthiness: an absent or empty-string `status` is falsy. -/
def statusChanged (ex : Issue) (b : IssueUpdateBody) : Bool :=
  match b.status with
  | none => false
  | some s => s ≠ "" && s ≠ ex.status

/-- `updateIssue` (PUT `/api/issues/:id`): load the issue (404 if absent),
authorize (reporter, OFFICIAL or ADMIN; otherwise 403), apply the update, and
if the status changed attempt one best-effort status notification to the
reporter; `emailFails` says whether that dispatch throws, which is only
logged. -/
def updateIssue (db : DB) (actor : AuthedUser) (id : String)
    (b : IssueUpdateBody) (emailFails : Bool) : UpdateOutcome :=
  match findIssue db id with
  | none => ⟨.failure 404 "Issue not found", db, [], []⟩
  | some ex =>
    if ex.reporterId ≠ actor.id ∧ actor.role ≠ "OFFICIAL" ∧ actor.role ≠ "ADMIN" then
      ⟨.failure 403 "Not authorized to update this issue", db, [], []⟩
    else
      match prismaIssueUpdateData ex b with
      | .error e => ⟨.failure 500 e, db, [], []⟩
      | .ok upd =>
        let db' := setIssue db upd
        if statusChanged ex b then
          ⟨.success 200 upd, db',
           [.statusUpdate ((findUser db' ex.reporterId).map (fun u => u.email))
              id ex.status (b.status.getD "")],
           if emailFails then ["Failed to send status update email"] else []⟩
        else
          ⟨.success 200 upd, db', [], []⟩

/-! ## Issue delete (`deleteIssue`) -/

/-- `prisma.comment.deleteMany({ where: { issueId: id } })`. -/
def deleteCommentsOf (db : DB) (id : String) : DB :=
  { db with comments := db.comments.filter (fun c => c.issueId ≠ id) }

/-- `prisma.issue.delete({ where: { id } })` (`id` is unique). -/
def removeIssueById (db : DB) (id : String) : DB :=
  { db with issues := db.issues.filter (fun i => i.id ≠ id) }

/-- `deleteIssue` (DELETE `/api/issues/:id`): load the issue (404 if absent),
authorize (reporter or ADMIN; otherwise 403), delete the comments referencing
the issue, then delete the issue. -/
def deleteIssue (db : DB) (actor : AuthedUser) (id : String) :
    Resp Unit × DB :=
  match findIssue db id with
  | none => (.failure 404 "Issue not found", db)
  | some ex =>
    if ex.reporterId ≠ actor.id ∧ actor.role ≠ "ADMIN" then
      (.failure 403 "Not authorized to delete this issue", db)
    else
      (.success 200 (), removeIssueById (deleteCommentsOf db id) id)

/-! ## Upvote (`upvoteIssue`) -/

/-- `upvoteIssue` (POST `/api/issues/:id/upvote`): load the issue (404 if
absent), then `update` with `upvotes: { increment: 1 }`.  The handler never
reads `req.user` beyond authentication, so the actor is not a parameter. -/
def upvoteIssue (db : DB) (id : String) : Resp Issue × DB :=
  match findIssue db id with
  | none => (.failure 404 "Issue not found", db)
  | some ex =>
    let upd := { ex with upvotes := ex.upvotes + 1 }
    (.success 200 upd, setIssue db upd)

/-- `k` successive upvote requests for the same id. -/
def upvoteK (db : DB) (id : String) : Nat → DB
  | 0 => db
  | k + 1 => upvoteK ((upvoteIssue db id).2) id k

/-! ## Issue create (`createIssue` with the router's validator chain) -/

/-- The request body of `POST /api/issues`: each field is absent
(`undefined`) or present. -/
structure CreateIssueBody where
  title : Option String
  description : Option String
  location : Option String
  latitude : Option Int
  longitude : Option Int
  category : Option String
  images : Option (List String)
deriving DecidableEq, Repr

/-- `express-validator` `notEmpty()`: fails when the field is absent or the
empty string. -/
def fieldEmpty : Option String → Bool
  | none => true
  | some s => s = ""

/-- `isIn([...])` on the `category` field: fails when the field is absent or
not one of the eight categories. -/
def categoryAbsentOrInvalid : Option String → Bool
  | none => true
  | some c => c ∉ CATEGORIES

/-- The validator chain of `router.post('/')`: `title`, `description`,
`location` must be non-empty, `category` must be in the eight-value enum;
`validationResult` collects the messages. -/
def createValidationErrors (b : CreateIssueBody) : List String :=
  (if fieldEmpty b.title then ["Title is required"] else []) ++
  (if fieldEmpty b.description then ["Description is required"] else []) ++
  (if categoryAbsentOrInvalid b.category then ["Invalid category"] else []) ++
  (if fieldEmpty b.location then ["Location is required"] else [])

/-- The row `prisma.issue.create` inserts for a validated body.  Modelled
from the spec: the Prisma schema (not under `src/`) defaults `status` to
REPORTED and `upvotes` to 0 on create. -/
def createdIssue (actor : AuthedUser) (b : CreateIssueBody) (newId : String) : Issue :=
  { id := newId, title := b.title.getD "", description := b.description.getD "",
    location := b.location.getD "", latitude := b.latitude,
    longitude := b.longitude, category := b.category.getD "",
    status := "REPORTED", upvotes := 0, images := b.images.getD [],
    reporterId := actor.id }

/-- `createIssue` (POST `/api/issues`): 400 when the validator chain reports
errors; otherwise persist a new issue with `reporterId = req.user.id` and
attempt the two best-effort notifications.  `newId` is the id the store
generates. -/
def createIssue (db : DB) (actor : AuthedUser) (b : CreateIssueBody)
    (newId : String) : Resp Issue × DB × List Mail :=
  if createValidationErrors b ≠ [] then
    (.failure 400 "validation", db, [])
  else
    let issue := createdIssue actor b newId
    let db' : DB := { db with issues := issue :: db.issues }
    (.success 201 issue, db',
     [.issueCreated ((findUser db' actor.id).map (fun u => u.email)) newId,
      .adminNotice newId])

/-! ## Comments (`addComment`) -/

/-- `addComment` (POST `/api/issues/:id/comments`): the router validates
`content` non-empty (400 first), then the controller checks the issue exists
(404), then persists the comment with `authorId = req.user.id`. -/
def addComment (db : DB) (actor : AuthedUser) (id : String)
    (content : Option String) (newId : String) : Resp Comment × DB :=
  if fieldEmpty content then
    (.failure 400 "Comment content is required", db)
  else
    match findIssue db id with
    | none => (.failure 404 "Issue not found", db)
    | some _ =>
      let c : Comment := { id := newId, content := content.getD "",
                           issueId := id, authorId := actor.id }
      (.success 201 c, { db with comments := c :: db.comments })

/-! ## Listing (`getAllIssues`) -/

/-- The filter built by `getAllIssues`: `if (status) filter.status = status`
— an absent or empty-string query value (falsy) adds no condition. -/
def issueMatches (status? category? : Option String) (i : Issue) : Bool :=
  (match status? with
   | none => true
   | some s => if s = "" then true else i.status = s) &&
  (match category? with
   | none => true
   | some c => if c = "" then true else i.category = c)

/-- `Math.ceil(total / limit)` on JavaScript numbers: `none` stands for the
non-finite results at `limit = 0` (`Infinity` or `NaN`); a negative `limit`
gives a non-positive quotient whose ceiling is truncation toward zero. -/
def jsCeilDiv (total : Nat) (limit : Int) : Option Int :=
  if 0 < limit then some ((total + limit.toNat - 1) / limit.toNat : Nat)
  else if limit = 0 then none
  else some (-(total / (-limit).toNat : Nat))

/-- The `pagination` block of the list response. -/
structure Pagination where
  total : Nat
  page : Int
  limit : Int
  pages : Option Int
deriving DecidableEq, Repr

/-- A page of issues with its metadata. -/
structure IssuePage where
  results : Nat
  pagination : Pagination
  issues : List Issue
deriving DecidableEq, Repr

/-- `findMany({ skip, take })` after the filter: a negative `take` makes
Prisma return the last `|take|` records; a negative `skip` makes Prisma
throw (surfaced as 500 by the error handler). -/
def prismaPage (l : List Issue) (skip take : Int) : Except String (List Issue) :=
  if skip < 0 then .error "Invalid value for skip"
  else if 0 ≤ take then .ok ((l.drop skip.toNat).take take.toNat)
  else .ok (((l.drop skip.toNat).reverse.take (-take).toNat).reverse)

/-- `getAllIssues` (GET `/api/issues`): `skip = (page-1)*limit`, a
`findMany` ordered newest-first (the list order of `db.issues` stands for
the `createdAt desc` ordering), a `count` under the same filter, and the
pagination block `{total, page, limit, pages: Math.ceil(total/limit)}`.
No clamping of `page` or `limit` happens here. -/
def getAllIssues (db : DB) (status? category? : Option String)
    (page limit : Int) : Except String IssuePage :=
  let matched := db.issues.filter (issueMatches status? category?)
  let skip := (page - 1) * limit
  match prismaPage matched skip limit with
  | .error e => .error e
  | .ok items =>
    let total := matched.length
    .ok { results := items.length,
          pagination := { total := total, page := page, limit := limit,
                          pages := jsCeilDiv total limit },
          issues := items }

/-! ## User controller (`src/unnamed/part_000`) -/

/-- `getUserById` (GET `/api/users/:id`): the authorization check (`self or
ADMIN`) runs before the existence lookup. -/
def getUserById (db : DB) (actor : AuthedUser) (id : String) : Resp User :=
  if id ≠ actor.id ∧ actor.role ≠ "ADMIN" then
    .failure 403 "Not authorized to view this user"
  else
    match findUser db id with
    | none => .failure 404 "User not found"
    | some u => .success 200 u

/-- The request body of `PUT /api/users/:id`. -/
structure UserUpdateBody where
  name : Option String
  profilePicture : Option String
deriving DecidableEq, Repr

/-- `updateUser` (PUT `/api/users/:id`): the authorization check (`self or
ADMIN`) runs before the existence lookup; then `name`/`profilePicture` are
updated (`undefined` fields are left unchanged by Prisma). -/
def updateUser (db : DB) (actor : AuthedUser) (id : String)
    (b : UserUpdateBody) : Resp User × DB :=
  if id ≠ actor.id ∧ actor.role ≠ "ADMIN" then
    (.failure 403 "Not authorized to update this user", db)
  else
    match findUser db id with
    | none => (.failure 404 "User not found", db)
    | some u =>
      let upd := { u with name := b.name.getD u.name,
                          profilePicture := b.profilePicture.getD u.profilePicture }
      (.success 200 upd,
       { db with users := db.users.map (fun v => if v.id = upd.id then upd else v) })

/-! ## Frontend pagination utility (`src/frontend/utils/pagination.js`) -/

/-- The `{page, limit, skip}` triple `getPaginationParams` returns. -/
structure PaginationParams where
  page : Int
  limit : Int
  skip : Int
deriving DecidableEq, Repr

/-- `getPaginationParams(page, limit)`: clamps both to a minimum of 1 and
computes `skip = (validPage - 1) * validLimit`. -/
def getPaginationParams (page limit : Int) : PaginationParams :=
  let validPage := max 1 page
  let validLimit := max 1 limit
  { page := validPage, limit := validLimit,
    skip := (validPage - 1) * validLimit }

/-! ## Example fixtures -/

def uAlice : User := ⟨"u1", "Alice", "alice@example.com", "CITIZEN", "p1"⟩

def uBob : User := ⟨"u2", "Bob", "bob@example.com", "ADMIN", "p2"⟩

def uCarol : User := ⟨"u3", "Carol", "carol@example.com", "OFFICIAL", "p3"⟩

def iPothole : Issue :=
  ⟨"i1", "Pothole", "Big pothole on 5th", "5th Ave", none, none,
   "ROADS", "REPORTED", 0, [], "u1"⟩

def cFirst : Comment := ⟨"c1", "First comment", "i1", "u3"⟩

def exDB : DB := ⟨[uAlice, uBob, uCarol], [iPothole], [cFirst]⟩

def aliceAuth : AuthedUser := ⟨"u1", "alice@example.com", "Alice", "CITIZEN"⟩

def bobAuth : AuthedUser := ⟨"u2", "bob@example.com", "Bob", "ADMIN"⟩

def carolAuth : AuthedUser := ⟨"u3", "carol@example.com", "Carol", "OFFICIAL"⟩

def daveAuth : AuthedUser := ⟨"u4", "dave@example.com", "Dave", "CITIZEN"⟩

/-- A concrete stand-in for `jwt.verify` used by witnesses: one valid token,
one expired token, everything else a bad signature. -/
def exVerify : String → VerifyResult :=
  fun t => if t = "tok" then .ok "u1" else if t = "exp" then .expired
           else .invalidSignature

/-! ## Helper lemmas -/

/-- `Resp.isOk`: the response is a success. -/
def Resp.isOk {α : Type} : Resp α → Bool
  | .success _ _ => true
  | .failure _ _ => false

theorem find?_map_update {α : Type} (key : α → String) (upd : α) (id : String)
    (hupd : key upd = id) :
    ∀ l : List α,
      (l.map (fun i => if key i = key upd then upd else i)).find?
          (fun i => key i = id) =
        (l.find? (fun i => key i = id)).map (fun _ => upd) := by
  intro l
  induction l with
  | nil => rfl
  | cons a l ih =>
    by_cases ha : key a = id
    · simp [List.find?, ha, hupd]
    · have ha' : ¬ key a = key upd := by rw [hupd]; exact ha
      simp [List.find?, ha, ha', ih]

theorem find?_map_update_ne {α : Type} (key : α → String) (upd : α) (id j : String)
    (hupd : key upd = id) (hne : j ≠ id) :
    ∀ l : List α,
      (l.map (fun i => if key i = key upd then upd else i)).find?
          (fun i => key i = j) =
        l.find? (fun i => key i = j) := by
  intro l
  induction l with
  | nil => rfl
  | cons a l ih =>
    by_cases ha : key a = key upd
    · have haj : ¬ key a = j := by rw [ha, hupd]; exact fun h => hne h.symm
      have huj : ¬ key upd = j := by rw [hupd]; exact fun h => hne h.symm
      simp [List.find?, ha, haj, huj, ih]
    · simp [List.find?, ha, ih]

theorem findIssue_setIssue (db : DB) (upd : Issue) (id : String)
    (hupd : upd.id = id) :
    findIssue (setIssue db upd) id =
      (findIssue db id).map (fun _ => upd) := by
  simpa [findIssue, setIssue] using
    find?_map_update (fun i : Issue => i.id) upd id hupd db.issues

theorem findIssue_setIssue_ne (db : DB) (upd : Issue) (id j : String)
    (hupd : upd.id = id) (hne : j ≠ id) :
    findIssue (setIssue db upd) j = findIssue db j := by
  simpa [findIssue, setIssue] using
    find?_map_update_ne (fun i : Issue => i.id) upd id j hupd hne db.issues

theorem findIssue_id_eq {db : DB} {id : String} {ex : Issue}
    (h : findIssue db id = some ex) : ex.id = id := by
  have := List.find?_some h
  simpa using this

theorem findIssue_mem {db : DB} {id : String} {ex : Issue}
    (h : findIssue db id = some ex) : ex ∈ db.issues :=
  List.mem_of_find?_eq_some h

/-! ## Claim theorems -/

theorem upvote_step {db : DB} {id : String} {ex : Issue}
    (h : findIssue db id = some ex) :
    upvoteIssue db id =
      (.success 200 { ex with upvotes := ex.upvotes + 1 },
       setIssue db { ex with upvotes := ex.upvotes + 1 }) := by
  simp [upvoteIssue, h]

theorem upvoteK_adds {id : String} :
    ∀ (k : Nat) (db : DB) (ex : Issue), findIssue db id = some ex →
      findIssue (upvoteK db id k) id = some { ex with upvotes := ex.upvotes + k } := by
  intro k
  induction k with
  | zero => intro db ex h; simpa [upvoteK] using h
  | succ k ih =>
    intro db ex h
    have hstep : (upvoteIssue db id).2 = setIssue db { ex with upvotes := ex.upvotes + 1 } := by
      rw [upvote_step h]
    have hid : ({ ex with upvotes := ex.upvotes + 1 } : Issue).id = id := by
      simpa using findIssue_id_eq h
    have hfind : findIssue ((upvoteIssue db id).2) id =
        some { ex with upvotes := ex.upvotes + 1 } := by
      rw [hstep, findIssue_setIssue db _ id hid, h]
      rfl
    have hk := ih ((upvoteIssue db id).2) _ hfind
    rw [upvoteK, hk]
    congr 1
    simp only [Issue.mk.injEq, true_and, and_true]
    push_cast
    ring

/-- C6: upvoting an existing issue returns success and increments the counter
by exactly 1; `k` successive upvote calls add exactly `k` (no per-actor
deduplication — the handler does not read the actor at all), and the counter
never decreases. -/
theorem upvote_increments_by_one_and_k (db : DB) (id : String) (ex : Issue)
    (k : Nat) (h : findIssue db id = some ex) :
    (upvoteIssue db id).1 = .success 200 { ex with upvotes := ex.upvotes + 1 } ∧
    findIssue ((upvoteIssue db id).2) id = some { ex with upvotes := ex.upvotes + 1 } ∧
    findIssue (upvoteK db id k) id = some { ex with upvotes := ex.upvotes + k } ∧
    ex.upvotes ≤ ex.upvotes + k := by
  have h1 := upvote_step h
  refine ⟨by rw [h1], ?_, upvoteK_adds k db ex h, by omega⟩
  have h2 : (upvoteIssue db id).2 = setIssue db { ex with upvotes := ex.upvotes + 1 } := by
    rw [h1]
  rw [h2, findIssue_setIssue db _ id (by simpa using findIssue_id_eq h), h]
  rfl

/-- Witness for C6 at a concrete store: three upvote calls on the example
issue take the counter from 0 to 3. -/
theorem upvote_increments_witness :
    findIssue exDB "i1" = some iPothole ∧
    ((upvoteIssue exDB "i1").1 =
        .success 200 { iPothole with upvotes := iPothole.upvotes + 1 } ∧
      findIssue ((upvoteIssue exDB "i1").2) "i1" =
        some { iPothole with upvotes := iPothole.upvotes + 1 } ∧
      findIssue (upvoteK exDB "i1" 3) "i1" =
        some { iPothole with upvotes := iPothole.upvotes + 3 } ∧
      iPothole.upvotes ≤ iPothole.upvotes + 3) :=
  ⟨by decide, upvote_increments_by_one_and_k exDB "i1" iPothole 3 (by decide)⟩

theorem prismaIssueUpdateData_ok_frame {ex : Issue} {b : IssueUpdateBody} {u : Issue}
    (h : prismaIssueUpdateData ex b = .ok u) :
    u.id = ex.id ∧ u.location = ex.location ∧ u.latitude = ex.latitude ∧
    u.longitude = ex.longitude ∧ u.upvotes = ex.upvotes ∧ u.images = ex.images ∧
    u.reporterId = ex.reporterId := by
  unfold prismaIssueUpdateData at h
  split_ifs at h
  simp only [Except.ok.injEq] at h
  subst h
  simp

theorem prismaIssueUpdateData_ok_status {ex : Issue} {b : IssueUpdateBody} {u : Issue}
    (h : prismaIssueUpdateData ex b = .ok u) :
    u.status = b.status.getD ex.status ∧ validEnumField STATUSES b.status = true := by
  unfold prismaIssueUpdateData at h
  split_ifs at h with h1 h2
  simp only [Except.ok.injEq] at h
  subst h
  exact ⟨rfl, h1⟩

theorem updateIssue_unauthorized {db : DB} {actor : AuthedUser} {id : String}
    {ex : Issue} (b : IssueUpdateBody) (e : Bool) (h : findIssue db id = some ex)
    (h1 : ex.reporterId ≠ actor.id) (h2 : actor.role ≠ "OFFICIAL")
    (h3 : actor.role ≠ "ADMIN") :
    updateIssue db actor id b e =
      ⟨.failure 403 "Not authorized to update this issue", db, [], []⟩ := by
  simp [updateIssue, h, h1, h2, h3]

theorem deleteIssue_unauthorized {db : DB} {actor : AuthedUser} {id : String}
    {ex : Issue} (h : findIssue db id = some ex)
    (h1 : ex.reporterId ≠ actor.id) (h2 : actor.role ≠ "ADMIN") :
    deleteIssue db actor id =
      (.failure 403 "Not authorized to delete this issue", db) := by
  simp [deleteIssue, h, h1, h2]

/-- C2: updating an existing issue succeeds only for the reporter, an
OFFICIAL or an ADMIN, and deleting it succeeds only for the reporter or an
ADMIN; any other actor gets a 403 response and the store is unchanged. -/
theorem update_delete_authorization (db : DB) (actor : AuthedUser) (id : String)
    (ex : Issue) (b : IssueUpdateBody) (e : Bool)
    (h : findIssue db id = some ex) :
    ((updateIssue db actor id b e).resp.isOk = true →
      (ex.reporterId = actor.id ∨ actor.role = "OFFICIAL" ∨ actor.role = "ADMIN")) ∧
    (¬ (ex.reporterId = actor.id ∨ actor.role = "OFFICIAL" ∨ actor.role = "ADMIN") →
      updateIssue db actor id b e =
        ⟨.failure 403 "Not authorized to update this issue", db, [], []⟩) ∧
    ((deleteIssue db actor id).1.isOk = true →
      (ex.reporterId = actor.id ∨ actor.role = "ADMIN")) ∧
    (¬ (ex.reporterId = actor.id ∨ actor.role = "ADMIN") →
      deleteIssue db actor id =
        (.failure 403 "Not authorized to delete this issue", db)) := by
  refine ⟨?_, ?_, ?_, ?_⟩
  · intro hok
    by_contra hauth
    push_neg at hauth
    rw [updateIssue_unauthorized b e h hauth.1 hauth.2.1 hauth.2.2] at hok
    simp [Resp.isOk] at hok
  · intro hauth
    push_neg at hauth
    exact updateIssue_unauthorized b e h hauth.1 hauth.2.1 hauth.2.2
  · intro hok
    by_contra hauth
    push_neg at hauth
    rw [deleteIssue_unauthorized h hauth.1 hauth.2] at hok
    simp [Resp.isOk] at hok
  · intro hauth
    push_neg at hauth
    exact deleteIssue_unauthorized h hauth.1 hauth.2

/-- Witness for C2: Dave, a CITIZEN who is not the reporter, gets 403 on both
update and delete of the example issue, which stays in place. -/
theorem update_delete_authorization_witness :
    findIssue exDB "i1" = some iPothole ∧
    (¬ (iPothole.reporterId = daveAuth.id ∨ daveAuth.role = "OFFICIAL" ∨
          daveAuth.role = "ADMIN") ∧
      updateIssue exDB daveAuth "i1" ⟨none, none, some "RESOLVED", none⟩ false =
        ⟨.failure 403 "Not authorized to update this issue", exDB, [], []⟩) ∧
    (¬ (iPothole.reporterId = daveAuth.id ∨ daveAuth.role = "ADMIN") ∧
      deleteIssue exDB daveAuth "i1" =
        (.failure 403 "Not authorized to delete this issue", exDB)) :=
  ⟨by decide,
   ⟨by decide,
    (update_delete_authorization exDB daveAuth "i1" iPothole
        ⟨none, none, some "RESOLVED", none⟩ false (by decide)).2.1 (by decide)⟩,
   ⟨by decide,
    (update_delete_authorization exDB daveAuth "i1" iPothole
        ⟨none, none, some "RESOLVED", none⟩ false (by decide)).2.2.2 (by decide)⟩⟩

/-- C10: a successful `PUT /api/issues/:id` can change only title,
description, status and category; the issue's id, reporterId, upvotes,
location, latitude, longitude and images are unchanged, the updated record
is what the store now holds at that id, and no other issue is touched. -/
theorem update_frame (db : DB) (actor : AuthedUser) (id : String) (ex : Issue)
    (b : IssueUpdateBody) (e : Bool) (c : Nat) (upd : Issue)
    (h : findIssue db id = some ex)
    (hr : (updateIssue db actor id b e).resp = .success c upd) :
    upd.id = ex.id ∧ upd.reporterId = ex.reporterId ∧ upd.upvotes = ex.upvotes ∧
    upd.location = ex.location ∧ upd.latitude = ex.latitude ∧
    upd.longitude = ex.longitude ∧ upd.images = ex.images ∧
    findIssue (updateIssue db actor id b e).db id = some upd ∧
    (∀ j, j ≠ id → findIssue (updateIssue db actor id b e).db j = findIssue db j) := by
  by_cases hauth : ex.reporterId ≠ actor.id ∧ actor.role ≠ "OFFICIAL" ∧ actor.role ≠ "ADMIN"
  · rw [updateIssue_unauthorized b e h hauth.1 hauth.2.1 hauth.2.2] at hr
    exact absurd hr (by simp)
  · cases hp : prismaIssueUpdateData ex b with
    | error msg =>
      have : updateIssue db actor id b e = ⟨.failure 500 msg, db, [], []⟩ := by
        simp [updateIssue, h, hp, if_neg hauth]
      rw [this] at hr
      exact absurd hr (by simp)
    | ok u =>
      have hu : updateIssue db actor id b e =
          if statusChanged ex b then
            ⟨.success 200 u, setIssue db u,
             [.statusUpdate ((findUser (setIssue db u) ex.reporterId).map (fun v => v.email))
                id ex.status (b.status.getD "")],
             if e then ["Failed to send status update email"] else []⟩
          else ⟨.success 200 u, setIssue db u, [], []⟩ := by
        simp [updateIssue, h, hp, if_neg hauth]
      have hud : upd = u := by
        rw [hu] at hr
        by_cases hsc : statusChanged ex b = true <;> simp [hsc] at hr <;>
          exact hr.2.symm
      subst hud
      have hfr := prismaIssueUpdateData_ok_frame hp
      have hdb : (updateIssue db actor id b e).db = setIssue db upd := by
        rw [hu]
        by_cases hsc : statusChanged ex b = true <;> simp [hsc]
      have huid : upd.id = id := by rw [hfr.1]; exact findIssue_id_eq h
      refine ⟨hfr.1, hfr.2.2.2.2.2.2, hfr.2.2.2.2.1, hfr.2.1, hfr.2.2.1,
              hfr.2.2.2.1, hfr.2.2.2.2.2.1, ?_, ?_⟩
      · rw [hdb, findIssue_setIssue db upd id huid, h]
        rfl
      · intro j hj
        rw [hdb, findIssue_setIssue_ne db upd id j huid hj]

/-- Witness for C10: Carol the OFFICIAL resolves the example issue; only the
status changes. -/
theorem update_frame_witness :
    findIssue exDB "i1" = some iPothole ∧
    (updateIssue exDB carolAuth "i1" ⟨none, none, some "RESOLVED", none⟩
        false).resp =
      .success 200 { iPothole with status := "RESOLVED" } ∧
    ({ iPothole with status := "RESOLVED" } : Issue).reporterId =
        iPothole.reporterId ∧
    findIssue (updateIssue exDB carolAuth "i1" ⟨none, none, some "RESOLVED", none⟩
        false).db "i1" = some { iPothole with status := "RESOLVED" } :=
  ⟨by decide, by decide,
   (update_frame exDB carolAuth "i1" iPothole ⟨none, none, some "RESOLVED", none⟩
      false 200 { iPothole with status := "RESOLVED" } (by decide) (by decide)).2.1,
   (update_frame exDB carolAuth "i1" iPothole ⟨none, none, some "RESOLVED", none⟩
      false 200 { iPothole with status := "RESOLVED" } (by decide) (by decide)).2.2.2.2.2.2.2.1⟩

/-- C3: a successful delete factors through the intermediate state in which
every comment referencing the issue is already gone while the issue itself
is still present, and the final state holds neither the issue nor any
comment referencing it. -/
theorem delete_removes_comments_then_issue (db : DB) (actor : AuthedUser)
    (id : String) (ex : Issue) (h : findIssue db id = some ex)
    (hok : (deleteIssue db actor id).1.isOk = true) :
    (deleteIssue db actor id).2 = removeIssueById (deleteCommentsOf db id) id ∧
    (∀ c ∈ (deleteCommentsOf db id).comments, c.issueId ≠ id) ∧
    findIssue (deleteCommentsOf db id) id = some ex ∧
    (∀ c ∈ ((deleteIssue db actor id).2).comments, c.issueId ≠ id) ∧
    findIssue ((deleteIssue db actor id).2) id = none := by
  have hd : deleteIssue db actor id =
      (.success 200 (), removeIssueById (deleteCommentsOf db id) id) := by
    by_cases hauth : ex.reporterId ≠ actor.id ∧ actor.role ≠ "ADMIN"
    · rw [deleteIssue_unauthorized h hauth.1 hauth.2] at hok
      simp [Resp.isOk] at hok
    · simp [deleteIssue, h, if_neg hauth]
  have hcm : ∀ c ∈ (deleteCommentsOf db id).comments, c.issueId ≠ id := by
    intro c hc
    have := (List.mem_filter.1 hc).2
    simpa using this
  refine ⟨by rw [hd], hcm, by simpa [findIssue, deleteCommentsOf] using h, ?_, ?_⟩
  · intro c hc
    rw [hd] at hc
    exact hcm c hc
  · rw [hd]
    refine List.find?_eq_none.2 ?_
    intro i hi
    have := (List.mem_filter.1 hi).2
    simpa using this

/-- Witness for C3: Alice the reporter deletes the example issue, which has
one comment; the comment and then the issue disappear. -/
theorem delete_removes_comments_then_issue_witness :
    findIssue exDB "i1" = some iPothole ∧
    (deleteIssue exDB aliceAuth "i1").1.isOk = true ∧
    ((deleteIssue exDB aliceAuth "i1").2 =
        removeIssueById (deleteCommentsOf exDB "i1") "i1" ∧
      findIssue (deleteCommentsOf exDB "i1") "i1" = some iPothole ∧
      findIssue ((deleteIssue exDB aliceAuth "i1").2) "i1" = none) := by
  have h := delete_removes_comments_then_issue exDB aliceAuth "i1" iPothole
    (by decide) (by decide)
  exact ⟨by decide, by decide, h.1, h.2.2.1, h.2.2.2.2⟩

/-- C1 counterexample: the store has no user "u9"; Alice (a CITIZEN
addressing someone else) gets 403, not 404, from both user view and user
update — authorization is decided before existence for these operations. -/
theorem missing_user_answered_403 :
    findUser exDB "u9" = none ∧
    getUserById exDB aliceAuth "u9" =
      .failure 403 "Not authorized to view this user" ∧
    (updateUser exDB aliceAuth "u9" ⟨some "X", none⟩).1 =
      .failure 403 "Not authorized to update this user" := by
  decide

/-- C1 amended: the issue-addressed operations (update, delete, upvote, and
comment with a valid body) resolve existence first and answer 404 for every
actor; the user view/update operations check authorization first, so a
missing user yields 403 for an actor who is neither the target nor an ADMIN
and 404 only for the target or an ADMIN. -/
theorem existence_check_ordering (db : DB) (actor : AuthedUser)
    (iid uid : String) (b : IssueUpdateBody) (e : Bool)
    (content : Option String) (newId : String) (ub : UserUpdateBody)
    (hi : findIssue db iid = none) (hu : findUser db uid = none) :
    updateIssue db actor iid b e = ⟨.failure 404 "Issue not found", db, [], []⟩ ∧
    deleteIssue db actor iid = (.failure 404 "Issue not found", db) ∧
    upvoteIssue db iid = (.failure 404 "Issue not found", db) ∧
    (fieldEmpty content = false →
      addComment db actor iid content newId = (.failure 404 "Issue not found", db)) ∧
    ((uid ≠ actor.id ∧ actor.role ≠ "ADMIN") →
      getUserById db actor uid = .failure 403 "Not authorized to view this user" ∧
      updateUser db actor uid ub =
        (.failure 403 "Not authorized to update this user", db)) ∧
    ((uid = actor.id ∨ actor.role = "ADMIN") →
      getUserById db actor uid = .failure 404 "User not found" ∧
      updateUser db actor uid ub = (.failure 404 "User not found", db)) := by
  refine ⟨by simp [updateIssue, hi], by simp [deleteIssue, hi],
          by simp [upvoteIssue, hi], ?_, ?_, ?_⟩
  · intro hc
    simp [addComment, hc, hi]
  · intro hcond
    exact ⟨by simp [getUserById, hcond.1, hcond.2],
           by simp [updateUser, hcond.1, hcond.2]⟩
  · intro hor
    have hnc : ¬ (uid ≠ actor.id ∧ actor.role ≠ "ADMIN") := by tauto
    exact ⟨by simp [getUserById, if_neg hnc, hu],
           by simp [updateUser, if_neg hnc, hu]⟩

/-- Witness for C1 (amended): with no issue "i9" and no user "u9" in the
example store, update answers 404, and user view answers 403 to Alice but
404 to Bob the ADMIN. -/
theorem existence_check_ordering_witness :
    findIssue exDB "i9" = none ∧ findUser exDB "u9" = none ∧
    updateIssue exDB aliceAuth "i9" ⟨none, none, none, none⟩ false =
      ⟨.failure 404 "Issue not found", exDB, [], []⟩ ∧
    getUserById exDB aliceAuth "u9" =
      .failure 403 "Not authorized to view this user" ∧
    getUserById exDB bobAuth "u9" = .failure 404 "User not found" := by
  have h1 := existence_check_ordering exDB aliceAuth "i9" "u9"
    ⟨none, none, none, none⟩ false (some "hi") "c9" ⟨none, none⟩
    (by decide) (by decide)
  have h2 := existence_check_ordering exDB bobAuth "i9" "u9"
    ⟨none, none, none, none⟩ false (some "hi") "c9" ⟨none, none⟩
    (by decide) (by decide)
  exact ⟨by decide, by decide, h1.1, (h1.2.2.2.2.1 (by decide)).1,
         (h2.2.2.2.2.2 (by decide)).1⟩

/-- C4: the update's response, successor store and notification attempts do
not depend on whether the dispatch fails (a failure is only logged); on a
successful update, exactly one status notification carrying the old and the
new status is attempted when a status was provided and differs from the
current one, and none otherwise. -/
theorem status_change_notification (db : DB) (actor : AuthedUser) (id : String)
    (b : IssueUpdateBody) (ex : Issue) (h : findIssue db id = some ex) :
    (∀ e1 e2 : Bool,
      (updateIssue db actor id b e1).resp = (updateIssue db actor id b e2).resp ∧
      (updateIssue db actor id b e1).db = (updateIssue db actor id b e2).db ∧
      (updateIssue db actor id b e1).mails = (updateIssue db actor id b e2).mails) ∧
    (∀ e : Bool, (updateIssue db actor id b e).log =
      if e = true ∧ (updateIssue db actor id b e).mails ≠ [] then
        ["Failed to send status update email"]
      else []) ∧
    (∀ e : Bool, (updateIssue db actor id b e).resp.isOk = true →
      (updateIssue db actor id b e).mails =
        match b.status with
        | some s =>
          if s = ex.status then []
          else [.statusUpdate
                  ((findUser (updateIssue db actor id b e).db ex.reporterId).map
                    (fun v => v.email)) id ex.status s]
        | none => []) := by
  refine ⟨?_, ?_, ?_⟩
  · intro e1 e2
    by_cases hauth : ex.reporterId ≠ actor.id ∧ actor.role ≠ "OFFICIAL" ∧ actor.role ≠ "ADMIN"
    · rw [updateIssue_unauthorized b e1 h hauth.1 hauth.2.1 hauth.2.2,
          updateIssue_unauthorized b e2 h hauth.1 hauth.2.1 hauth.2.2]
      exact ⟨rfl, rfl, rfl⟩
    · cases hp : prismaIssueUpdateData ex b with
      | error msg =>
        have h1 : updateIssue db actor id b e1 = ⟨.failure 500 msg, db, [], []⟩ := by
          simp [updateIssue, h, hp, if_neg hauth]
        have h2 : updateIssue db actor id b e2 = ⟨.failure 500 msg, db, [], []⟩ := by
          simp [updateIssue, h, hp, if_neg hauth]
        rw [h1, h2]
        exact ⟨rfl, rfl, rfl⟩
      | ok u =>
        by_cases hsc : statusChanged ex b = true <;>
          simp [updateIssue, h, hp, if_neg hauth, hsc]
  · intro e
    by_cases hauth : ex.reporterId ≠ actor.id ∧ actor.role ≠ "OFFICIAL" ∧ actor.role ≠ "ADMIN"
    · rw [updateIssue_unauthorized b e h hauth.1 hauth.2.1 hauth.2.2]
      simp
    · cases hp : prismaIssueUpdateData ex b with
      | error msg =>
        have h5 : updateIssue db actor id b e = ⟨.failure 500 msg, db, [], []⟩ := by
          simp [updateIssue, h, hp, if_neg hauth]
        rw [h5]
        simp
      | ok u =>
        by_cases hsc : statusChanged ex b = true <;>
          cases e <;> simp [updateIssue, h, hp, if_neg hauth, hsc]
  · intro e hok
    by_cases hauth : ex.reporterId ≠ actor.id ∧ actor.role ≠ "OFFICIAL" ∧ actor.role ≠ "ADMIN"
    · rw [updateIssue_unauthorized b e h hauth.1 hauth.2.1 hauth.2.2] at hok
      simp [Resp.isOk] at hok
    · cases hp : prismaIssueUpdateData ex b with
      | error msg =>
        have h5 : updateIssue db actor id b e = ⟨.failure 500 msg, db, [], []⟩ := by
          simp [updateIssue, h, hp, if_neg hauth]
        rw [h5] at hok
        simp [Resp.isOk] at hok
      | ok u =>
        have hst := prismaIssueUpdateData_ok_status hp
        cases hbs : b.status with
        | none =>
          have hsc : statusChanged ex b = false := by simp [statusChanged, hbs]
          simp [updateIssue, h, hp, if_neg hauth, hsc, hbs]
        | some s =>
          have hmem : s ∈ STATUSES := by
            have h2 := hst.2
            rw [hbs] at h2
            simpa [validEnumField] using h2
          have hs0 : s ≠ "" := by
            intro hcon
            rw [hcon] at hmem
            exact absurd hmem (by decide)
          by_cases hse : s = ex.status
          · have hsc : statusChanged ex b = false := by
              simp [statusChanged, hbs, hse]
            simp [updateIssue, h, hp, if_neg hauth, hsc, hbs, hse]
          · have hsc : statusChanged ex b = true := by
              simp [statusChanged, hbs, hs0, hse]
            simp [updateIssue, h, hp, if_neg hauth, hsc, hbs, hse]

/-- Witness for C4: Carol the OFFICIAL resolves the example issue; the
response and store are the same whether or not the dispatch fails, and on
success exactly one notification carrying REPORTED → RESOLVED is attempted. -/
theorem status_change_notification_witness :
    findIssue exDB "i1" = some iPothole ∧
    (updateIssue exDB carolAuth "i1" ⟨none, none, some "RESOLVED", none⟩ true).resp =
      (updateIssue exDB carolAuth "i1" ⟨none, none, some "RESOLVED", none⟩ false).resp ∧
    (updateIssue exDB carolAuth "i1" ⟨none, none, some "RESOLVED", none⟩ false).resp.isOk
      = true ∧
    (updateIssue exDB carolAuth "i1" ⟨none, none, some "RESOLVED", none⟩ false).mails =
      [.statusUpdate (some "alice@example.com") "i1" "REPORTED" "RESOLVED"] := by
  have h := status_change_notification exDB carolAuth "i1"
    ⟨none, none, some "RESOLVED", none⟩ iPothole (by decide)
  refine ⟨by decide, (h.1 true false).1, by decide, ?_⟩
  have h2 := h.2.2 false (by decide)
  rw [h2]
  decide

/-- The invariant "every stored issue has one of the five statuses". -/
@[reducible] def statusesValid (db : DB) : Prop :=
  ∀ i ∈ db.issues, i.status ∈ STATUSES

theorem statusesValid_setIssue {db : DB} {u : Issue} (hdb : statusesValid db)
    (hu : u.status ∈ STATUSES) : statusesValid (setIssue db u) := by
  intro i hi
  rcases List.mem_map.1 hi with ⟨j, hj, rfl⟩
  split_ifs
  · exact hu
  · exact hdb j hj

/-- C5: an update whose `status` is outside the five-value enum never
succeeds and leaves the store untouched, and every mutating operation
preserves the invariant that each stored issue's status is one of the five
defined values. -/
theorem status_enum_invariant :
    (∀ (db : DB) (actor : AuthedUser) (id : String) (b : IssueUpdateBody)
        (e : Bool) (s : String), b.status = some s → s ∉ STATUSES →
      (updateIssue db actor id b e).resp.isOk = false ∧
      (updateIssue db actor id b e).db = db) ∧
    (∀ (db : DB) (actor : AuthedUser) (id : String) (b : IssueUpdateBody)
        (e : Bool), statusesValid db → statusesValid (updateIssue db actor id b e).db) ∧
    (∀ (db : DB) (actor : AuthedUser) (b : CreateIssueBody) (newId : String),
      statusesValid db → statusesValid (createIssue db actor b newId).2.1) ∧
    (∀ (db : DB) (id : String), statusesValid db →
      statusesValid (upvoteIssue db id).2) ∧
    (∀ (db : DB) (actor : AuthedUser) (id : String), statusesValid db →
      statusesValid (deleteIssue db actor id).2) := by
  refine ⟨?_, ?_, ?_, ?_, ?_⟩
  · intro db actor id b e s hbs hs
    have hpe : ∀ ex : Issue,
        prismaIssueUpdateData ex b = .error "Invalid value for argument status" := by
      intro ex
      simp [prismaIssueUpdateData, validEnumField, hbs, hs]
    cases hf : findIssue db id with
    | none => simp [updateIssue, hf, Resp.isOk]
    | some ex =>
      by_cases hauth : ex.reporterId ≠ actor.id ∧ actor.role ≠ "OFFICIAL" ∧
          actor.role ≠ "ADMIN"
      · rw [updateIssue_unauthorized b e hf hauth.1 hauth.2.1 hauth.2.2]
        simp [Resp.isOk]
      · simp [updateIssue, hf, if_neg hauth, hpe ex, Resp.isOk]
  · intro db actor id b e hdb
    cases hf : findIssue db id with
    | none => simpa [updateIssue, hf] using hdb
    | some ex =>
      by_cases hauth : ex.reporterId ≠ actor.id ∧ actor.role ≠ "OFFICIAL" ∧
          actor.role ≠ "ADMIN"
      · rw [updateIssue_unauthorized b e hf hauth.1 hauth.2.1 hauth.2.2]
        exact hdb
      · cases hp : prismaIssueUpdateData ex b with
        | error msg =>
          have h5 : updateIssue db actor id b e = ⟨.failure 500 msg, db, [], []⟩ := by
            simp [updateIssue, hf, hp, if_neg hauth]
          rw [h5]
          exact hdb
        | ok u =>
          have hdbeq : (updateIssue db actor id b e).db = setIssue db u := by
            by_cases hsc : statusChanged ex b = true <;>
              simp [updateIssue, hf, hp, if_neg hauth, hsc]
          rw [hdbeq]
          refine statusesValid_setIssue hdb ?_
          have hst := prismaIssueUpdateData_ok_status hp
          cases hbs : b.status with
          | none =>
            rw [hst.1, hbs]
            exact hdb ex (findIssue_mem hf)
          | some s =>
            rw [hst.1, hbs]
            have h2 := hst.2
            rw [hbs] at h2
            simpa [validEnumField] using h2
  · intro db actor b newId hdb
    by_cases hv : createValidationErrors b = []
    · intro i hi
      simp [createIssue, hv] at hi
      rcases hi with hhead | htail
      · rw [hhead]
        show "REPORTED" ∈ STATUSES
        decide
      · exact hdb i htail
    · simpa [createIssue, hv] using hdb
  · intro db id hdb
    cases hf : findIssue db id with
    | none => simpa [upvoteIssue, hf] using hdb
    | some ex =>
      rw [upvote_step hf]
      refine statusesValid_setIssue hdb ?_
      exact hdb ex (findIssue_mem hf)
  · intro db actor id hdb
    cases hf : findIssue db id with
    | none => simpa [deleteIssue, hf] using hdb
    | some ex =>
      by_cases hauth : ex.reporterId ≠ actor.id ∧ actor.role ≠ "ADMIN"
      · rw [deleteIssue_unauthorized hf hauth.1 hauth.2]
        exact hdb
      · have hd : (deleteIssue db actor id).2 =
            removeIssueById (deleteCommentsOf db id) id := by
          simp [deleteIssue, hf, if_neg hauth]
        rw [hd]
        intro i hi
        exact hdb i (List.mem_of_mem_filter hi)

/-- Witness for C5: updating the example issue with the bogus status
"FIXED" is rejected with the store untouched, and the example store's
status invariant is preserved by an upvote. -/
theorem status_enum_invariant_witness :
    (updateIssue exDB carolAuth "i1" ⟨none, none, some "FIXED", none⟩ false).resp.isOk
        = false ∧
    (updateIssue exDB carolAuth "i1" ⟨none, none, some "FIXED", none⟩ false).db = exDB ∧
    statusesValid exDB ∧ statusesValid (upvoteIssue exDB "i1").2 := by
  have h1 := status_enum_invariant.1 exDB carolAuth "i1"
    ⟨none, none, some "FIXED", none⟩ false "FIXED" rfl (by decide)
  have h2 := status_enum_invariant.2.2.2.1 exDB "i1" (by decide)
  exact ⟨h1.1, h1.2, by decide, h2⟩

/-- C7: issue creation fails with 400 and leaves the store untouched exactly
when title, description or location is empty/absent or the category is
absent or outside the eight-value enum; otherwise it answers 201 with an
issue whose status is REPORTED and whose reporterId is the acting user's
id, prepended to the store. -/
theorem create_validation_and_defaults (db : DB) (actor : AuthedUser)
    (b : CreateIssueBody) (newId : String) :
    (createValidationErrors b = [] ↔
      (fieldEmpty b.title = false ∧ fieldEmpty b.description = false ∧
       fieldEmpty b.location = false ∧ categoryAbsentOrInvalid b.category = false)) ∧
    (categoryAbsentOrInvalid b.category = false ↔
      (∃ c, b.category = some c ∧ c ∈ CATEGORIES)) ∧
    (createValidationErrors b ≠ [] →
      createIssue db actor b newId = (.failure 400 "validation", db, [])) ∧
    (createValidationErrors b = [] →
      createIssue db actor b newId =
        (.success 201 (createdIssue actor b newId),
         { db with issues := createdIssue actor b newId :: db.issues },
         [.issueCreated
            ((findUser { db with issues := createdIssue actor b newId :: db.issues }
                actor.id).map (fun u => u.email)) newId,
          .adminNotice newId]) ∧
      (createdIssue actor b newId).status = "REPORTED" ∧
      (createdIssue actor b newId).reporterId = actor.id) := by
  refine ⟨?_, ?_, ?_, ?_⟩
  · unfold createValidationErrors
    constructor
    · intro h
      by_cases h1 : fieldEmpty b.title <;> by_cases h2 : fieldEmpty b.description <;>
        by_cases h3 : categoryAbsentOrInvalid b.category <;>
        by_cases h4 : fieldEmpty b.location <;>
        simp [h1, h2, h3, h4] at h ⊢
    · intro h
      simp [h.1, h.2.1, h.2.2.1, h.2.2.2]
  · cases hc : b.category with
    | none => simp [categoryAbsentOrInvalid]
    | some c => simp [categoryAbsentOrInvalid]
  · intro hv
    simp [createIssue, hv]
  · intro hv
    refine ⟨?_, rfl, rfl⟩
    simp [createIssue, hv]

/-- Witness for C7: Scenario A's body creates a REPORTED issue reported by
Alice, and an empty-title body is rejected with the store untouched. -/
theorem create_validation_witness :
    createValidationErrors
        ⟨some "Pothole", some "Big pothole on 5th", some "5th Ave",
         none, none, some "ROADS", none⟩ = [] ∧
    (createIssue exDB aliceAuth
        ⟨some "Pothole", some "Big pothole on 5th", some "5th Ave",
         none, none, some "ROADS", none⟩ "i2").1 =
      .success 201 (createdIssue aliceAuth
        ⟨some "Pothole", some "Big pothole on 5th", some "5th Ave",
         none, none, some "ROADS", none⟩ "i2") ∧
    (createdIssue aliceAuth
        ⟨some "Pothole", some "Big pothole on 5th", some "5th Ave",
         none, none, some "ROADS", none⟩ "i2").status = "REPORTED" ∧
    (createdIssue aliceAuth
        ⟨some "Pothole", some "Big pothole on 5th", some "5th Ave",
         none, none, some "ROADS", none⟩ "i2").reporterId = aliceAuth.id ∧
    createValidationErrors ⟨some "", some "d", some "l", none, none,
        some "ROADS", none⟩ ≠ [] ∧
    createIssue exDB aliceAuth ⟨some "", some "d", some "l", none, none,
        some "ROADS", none⟩ "i2" = (.failure 400 "validation", exDB, []) := by
  have hok := (create_validation_and_defaults exDB aliceAuth
    ⟨some "Pothole", some "Big pothole on 5th", some "5th Ave",
     none, none, some "ROADS", none⟩ "i2").2.2.2 (by decide)
  have hbad := (create_validation_and_defaults exDB aliceAuth
    ⟨some "", some "d", some "l", none, none, some "ROADS", none⟩ "i2").2.2.1
    (by decide)
  refine ⟨by decide, ?_, hok.2.1, hok.2.2, by decide, hbad⟩
  rw [hok.1]

/-- `(t + l - 1) / l` is the ceiling of `t / l`: the smallest multiple
bound from both sides. -/
theorem ceil_bounds (t l : Nat) (hl : 0 < l) :
    t ≤ ((t + l - 1) / l) * l ∧ ((t + l - 1) / l) * l < t + l := by
  have h1 := Nat.div_add_mod (t + l - 1) l
  have hm : (t + l - 1) % l < l := Nat.mod_lt _ hl
  rw [mul_comm ((t + l - 1) / l) l]
  generalize hq : l * ((t + l - 1) / l) = p at h1 ⊢
  generalize hmm : (t + l - 1) % l = m at h1 hm
  omega

/-- C8 counterexample: against a store holding one issue, `limit = 0` is not
clamped: the handler returns zero items with `pagination.limit = 0` and a
non-finite `pages`, unlike the `limit = 1` page the claimed clamping would
produce. -/
theorem pagination_no_clamp_counterexample :
    getAllIssues exDB none none 1 0 =
      .ok { results := 0,
            pagination := { total := 1, page := 1, limit := 0, pages := none },
            issues := [] } ∧
    getAllIssues exDB none none 1 1 =
      .ok { results := 1,
            pagination := { total := 1, page := 1, limit := 1, pages := some 1 },
            issues := [iPothole] } :=
  ⟨rfl, rfl⟩

/-- C8 amended: for `page ≥ 1` and `limit ≥ 1` the list endpoint pages with
`skip = (page-1)*limit`, counts `total` under the same filter predicate as
the returned page, reports `pages` as the ceiling of `total / limit`, and a
page beyond the last yields an empty item list with the same metadata; the
backend applies no clamping — `limit ≤ 0` is passed through (see the
counterexample) and the min-1 clamping exists only in the frontend utility
`getPaginationParams`. -/
theorem pagination_math (db : DB) (s? c? : Option String) (page limit : Int)
    (hp : 1 ≤ page) (hl : 1 ≤ limit) :
    getAllIssues db s? c? page limit =
      .ok { results := (((db.issues.filter (issueMatches s? c?)).drop
              (((page - 1) * limit).toNat)).take limit.toNat).length,
            pagination := { total := (db.issues.filter (issueMatches s? c?)).length,
                            page := page, limit := limit,
                            pages := some (((db.issues.filter (issueMatches s? c?)).length
                              + limit.toNat - 1) / limit.toNat : Nat) },
            issues := ((db.issues.filter (issueMatches s? c?)).drop
              (((page - 1) * limit).toNat)).take limit.toNat } ∧
    (db.issues.filter (issueMatches s? c?)).length ≤
      (((db.issues.filter (issueMatches s? c?)).length + limit.toNat - 1)
          / limit.toNat) * limit.toNat ∧
    (((db.issues.filter (issueMatches s? c?)).length + limit.toNat - 1)
        / limit.toNat) * limit.toNat <
      (db.issues.filter (issueMatches s? c?)).length + limit.toNat ∧
    ((db.issues.filter (issueMatches s? c?)).length ≤ ((page - 1) * limit).toNat →
      ((db.issues.filter (issueMatches s? c?)).drop
        (((page - 1) * limit).toNat)).take limit.toNat = []) ∧
    (getPaginationParams page limit).page = page ∧
    (getPaginationParams page limit).limit = limit ∧
    (∀ p l : Int, (getPaginationParams p l).limit = max 1 l ∧
      1 ≤ (getPaginationParams p l).limit) := by
  have hl0 : 0 < limit.toNat := by omega
  have hskip : ¬ ((page - 1) * limit < 0) := by
    push_neg
    exact mul_nonneg (by omega) (by omega)
  refine ⟨?_, (ceil_bounds _ _ hl0).1, (ceil_bounds _ _ hl0).2, ?_, ?_, ?_, ?_⟩
  · simp [getAllIssues, prismaPage, if_neg hskip,
          if_pos (by omega : (0 : Int) ≤ limit), jsCeilDiv,
          if_pos (by omega : (0 : Int) < limit)]
  · intro hbeyond
    rw [List.drop_eq_nil_of_le hbeyond]
    simp
  · simp [getPaginationParams, max_eq_right hp]
  · simp [getPaginationParams, max_eq_right hl]
  · intro p l
    exact ⟨rfl, le_max_left 1 l⟩

/-- Witness for C8 (amended): page 2 at limit 5 over the one-issue store is
beyond the last page and returns an empty list with correct metadata. -/
theorem pagination_math_witness :
    (1 : Int) ≤ 2 ∧ (1 : Int) ≤ 5 ∧
    getAllIssues exDB none none 2 5 =
      .ok { results := 0,
            pagination := { total := 1, page := 2, limit := 5, pages := some 1 },
            issues := [] } := by
  refine ⟨by decide, by decide, ?_⟩
  rw [(pagination_math exDB none none 2 5 (by decide) (by decide)).1]
  rfl

/-- C9: a missing or malformed Authorization header, an invalid signature,
an expired token, or a subject with no live user each short-circuit with 401
before the guarded handler runs; otherwise the resolved user's
`{id, email, name, role}` is attached for the handler. -/
theorem auth_middleware_gate (verify : String → VerifyResult) (db : DB) :
    authMiddleware verify db none =
      .inl (401, "Not authenticated. Please log in") ∧
    (∀ hdr : String, strStartsWith hdr "Bearer " = false →
      authMiddleware verify db (some hdr) =
        .inl (401, "Not authenticated. Please log in")) ∧
    (∀ hdr : String, strStartsWith hdr "Bearer " = true →
      (verify (bearerToken hdr) = .invalidSignature →
        authMiddleware verify db (some hdr) =
          .inl (401, "Invalid token. Please log in again")) ∧
      (verify (bearerToken hdr) = .expired →
        authMiddleware verify db (some hdr) =
          .inl (401, "Your token has expired. Please log in again")) ∧
      (∀ uid, verify (bearerToken hdr) = .ok uid →
        (findUser db uid = none →
          authMiddleware verify db (some hdr) =
            .inl (401, "The user belonging to this token no longer exists")) ∧
        (∀ u, findUser db uid = some u →
          authMiddleware verify db (some hdr) =
            .inr ⟨u.id, u.email, u.name, u.role⟩))) := by
  refine ⟨rfl, ?_, ?_⟩
  · intro hdr hmal
    simp [authMiddleware, hmal]
  · intro hdr hok
    refine ⟨?_, ?_, ?_⟩
    · intro hsig
      simp [authMiddleware, hok, hsig]
    · intro hexp
      simp [authMiddleware, hok, hexp]
    · intro uid huid
      refine ⟨?_, ?_⟩
      · intro hnone
        simp [authMiddleware, hok, huid, hnone]
      · intro u hsome
        simp [authMiddleware, hok, huid, hsome]

/-- Witness for C9 at a concrete verifier and store: the four rejection
cases answer 401 and the valid token attaches Alice's projection. -/
theorem auth_middleware_gate_witness :
    authMiddleware exVerify exDB none =
      .inl (401, "Not authenticated. Please log in") ∧
    (strStartsWith "xyz" "Bearer " = false ∧
      authMiddleware exVerify exDB (some "xyz") =
        .inl (401, "Not authenticated. Please log in")) ∧
    (exVerify "bad" = .invalidSignature ∧
      authMiddleware exVerify exDB (some "Bearer bad") =
        .inl (401, "Invalid token. Please log in again")) ∧
    (exVerify "exp" = .expired ∧
      authMiddleware exVerify exDB (some "Bearer exp") =
        .inl (401, "Your token has expired. Please log in again")) ∧
    (findUser exDB "u1" = some uAlice ∧
      authMiddleware exVerify exDB (some "Bearer tok") =
        .inr ⟨uAlice.id, uAlice.email, uAlice.name, uAlice.role⟩) := by
  have h := auth_middleware_gate exVerify exDB
  refine ⟨h.1, ⟨by decide, h.2.1 "xyz" (by decide)⟩, ⟨by decide, ?_⟩,
          ⟨by decide, ?_⟩, ⟨by decide, ?_⟩⟩
  · exact (h.2.2 "Bearer bad" (by decide)).1 (by decide)
  · exact (h.2.2 "Bearer exp" (by decide)).2.1 (by decide)
  · exact ((h.2.2 "Bearer tok" (by decide)).2.2 "u1" (by decide)).2 uAlice (by decide)

end CivicIssue
